import Mathlib

/-!
Verification of the CANONIC EMAIL pipeline (email.py, auth.py,
validators/email_audit.py) against its natural-language specification.
Python values, dictionaries, the MSAL client library and the HTTP layer
are shallowly embedded; the functions `validate`, `log_send`,
`get_access_token` and `send_email` are translated from the source.
-/

/-- A Python value as it occurs in the dictionaries this program builds. -/
inductive PyValue
  | str (s : String)
  | int (n : Int)
  | bool (b : Bool)
  | none
deriving DecidableEq

/-- Python truthiness for the values above. -/
def truthy : PyValue → Bool
  | PyValue.str s => !s.isEmpty
  | PyValue.int n => n != 0
  | PyValue.bool b => b
  | PyValue.none => false

/-- A Python dict with string keys, embedded as an association list. -/
abbrev PyDict : Type := List (String × PyValue)

/-- Dictionary lookup: `d[k]` / `k in d`. -/
def dictGet (d : PyDict) (k : String) : Option PyValue :=
  (List.find? (fun p => p.1 = k) d).map (fun p => p.2)

/-- Python `str()` rendering, used when a value is put into an f-string. -/
def pyFormat : PyValue → String
  | PyValue.str s => s
  | PyValue.int n => toString n
  | PyValue.bool true => "True"
  | PyValue.bool false => "False"
  | PyValue.none => "None"

/-- `d.get(k, default)` rendered to a string, as the source does in its
error messages. -/
def getDesc (d : PyDict) (k : String) (default : String) : String :=
  match dictGet d k with
  | Option.some v => pyFormat v
  | Option.none => default

/-- A UTC instant as `datetime.utcnow()` yields it. -/
structure UTCTime where
  year : Nat
  month : Nat
  day : Nat
  hour : Nat
  minute : Nat
  second : Nat
  microsecond : Nat
deriving DecidableEq

/-- Zero-pad a number to a fixed width, as `strftime` and `isoformat` do. -/
def zpad (width : Nat) (n : Nat) : String :=
  let s := toString n
  String.mk (List.replicate (width - s.length) '0') ++ s

/-- `datetime.isoformat()`: `YYYY-MM-DDTHH:MM:SS[.ffffff]`, the fractional
part omitted when the microsecond field is zero. -/
def isoformat (t : UTCTime) : String :=
  zpad 4 t.year ++ "-" ++ zpad 2 t.month ++ "-" ++ zpad 2 t.day ++ "T" ++
  zpad 2 t.hour ++ ":" ++ zpad 2 t.minute ++ ":" ++ zpad 2 t.second ++
  (if t.microsecond = 0 then "" else "." ++ zpad 6 t.microsecond)

/-- `strftime("%Y%m%d-%H%M%S")`. -/
def strftimeCompact (t : UTCTime) : String :=
  zpad 4 t.year ++ zpad 2 t.month ++ zpad 2 t.day ++ "-" ++
  zpad 2 t.hour ++ zpad 2 t.minute ++ zpad 2 t.second

/-! ## validators/email_audit.py -/

/-- `VALIDATOR_ID` from email_audit.py. -/
def VALIDATOR_ID : String := "email.audit"

/-- `VERSION` from email_audit.py. -/
def VERSION : String := "1.0.0"

/-- The two exception classes the validator's `except` clause catches. -/
inductive PyExn
  | valueError
  | attributeError
deriving DecidableEq

/-- `context["timestamp"].replace("Z", "+00:00")` (Python `str.replace`
replaces every occurrence, as does `String.replace`). -/
def replaceZ (s : String) : String := s.replace "Z" "+00:00"

/-- `datetime.fromisoformat(v.replace("Z", "+00:00"))` on a context value.
`fromiso` abstracts the stdlib parser, which on a string argument either
succeeds or raises `ValueError`; on a non-string value the attribute
access `.replace` raises `AttributeError` before the parser runs. -/
def timestampParse (fromiso : String → Except PyExn Unit) : PyValue → Except PyExn Unit
  | PyValue.str s => fromiso (replaceZ s)
  | _ => Except.error PyExn.attributeError

/-- The `{"status": ..., "reason": ...}` result dict of `validate`. -/
structure VResult where
  status : String
  reason : String
deriving DecidableEq

/-- The loop `for field in required: if field not in context or not
context[field]` — first missing-or-falsy field, in list order. -/
def requiredMissing (context : PyDict) : List String → Option String
  | [] => Option.none
  | f :: rest =>
    match dictGet context f with
    | Option.none => Option.some f
    | Option.some v =>
      if truthy v then requiredMissing context rest else Option.some f

/-- `validate(context)` from email_audit.py. `fromiso` stands for the
stdlib ISO-8601 parser and `sentDirExists` for the filesystem test
`sent_dir.exists()`. -/
def validate (fromiso : String → Except PyExn Unit) (sentDirExists : Bool)
    (context : PyDict) : VResult :=
  match requiredMissing context ["to", "subject", "timestamp"] with
  | Option.some f => { status := "fail", reason := "Missing required field: " ++ f }
  | Option.none =>
    match timestampParse fromiso
        ((dictGet context "timestamp").getD PyValue.none) with
    | Except.error _ => { status := "fail", reason := "Invalid timestamp format" }
    | Except.ok _ =>
      if sentDirExists then
        { status := "pass", reason := "Audit trail ready" }
      else
        { status := "fail", reason := "Audit directory does not exist" }

/-- `context["to"].split("@")[0]`: the prefix of the address before its
first `@`, the whole address when it has none. -/
def localPart (addr : String) : String :=
  String.mk (addr.data.takeWhile (fun c => c ≠ '@'))

/-- `log_send(context, sent_dir)` from email_audit.py: the audit-record
helper shipped with the validator. Returns the file name (relative to
`sent_dir`) and the JSON entry. Never called by email.py's send path. -/
def log_send (context : PyDict) (now : UTCTime) : Option (String × PyDict) :=
  match dictGet context "to", dictGet context "subject" with
  | Option.some (PyValue.str toAddr), Option.some subjectVal =>
    let entry : PyDict :=
      [("validator", PyValue.str VALIDATOR_ID),
       ("version", PyValue.str VERSION),
       ("timestamp", PyValue.str (isoformat now ++ "Z")),
       ("to", PyValue.str toAddr),
       ("subject", subjectVal),
       ("status", PyValue.str "sent"),
       ("outlook", PyValue.bool true)]
    let recipientLocal := String.mk ((localPart toAddr).data.take 20)
    Option.some (strftimeCompact now ++ "-" ++ recipientLocal ++ ".json", entry)
  | _, _ => Option.none

/-! ## email.py: token provider -/

/-- `SCOPES` from email.py. -/
def SCOPES : List String := ["Mail.Send", "Mail.ReadWrite", "User.Read"]

/-- The MSAL public-client application as the program observes it: the
account list of the loaded cache, the silent and device-flow token calls,
and the serialized form of the in-memory cache at save time. -/
structure MsalEnv where
  accounts : List String
  acquire_token_silent : List String → String → Option PyDict
  initiate_device_flow : List String → PyDict
  acquire_token_by_device_flow : PyDict → PyDict
  cacheSerialized : String

/-- The persisted credential-cache blob (`.token_cache.json`), `none`
when no file exists. -/
structure AuthState where
  tokenCacheFile : Option String
deriving DecidableEq

/-- Outcome of `get_access_token`: the returned token value, or `None`
together with the description printed in the `ERROR:` line. -/
inductive AuthOutcome
  | token (v : PyValue)
  | noToken (description : String)
deriving DecidableEq

/-- Result of `get_access_token`: outcome, persisted cache state after
the call, and whether `initiate_device_flow` was reached. -/
structure AuthResult where
  outcome : AuthOutcome
  state : AuthState
  interactive : Bool
deriving DecidableEq

/-- The device-code branch of `get_access_token`: initiate the flow,
bail out if no `user_code` came back, otherwise poll
`acquire_token_by_device_flow`; persist the cache only when the result
carries an `access_token`. -/
def deviceFlowStep (env : MsalEnv) (st : AuthState) : AuthResult :=
  let flow := env.initiate_device_flow SCOPES
  match dictGet flow "user_code" with
  | Option.none =>
    { outcome := AuthOutcome.noToken (getDesc flow "error_description" "Could not initiate auth"),
      state := st, interactive := true }
  | Option.some _ =>
    let result := env.acquire_token_by_device_flow flow
    match dictGet result "access_token" with
    | Option.some v =>
      { outcome := AuthOutcome.token v,
        state := { tokenCacheFile := Option.some env.cacheSerialized },
        interactive := true }
    | Option.none =>
      { outcome := AuthOutcome.noToken (getDesc result "error_description" "Authentication failed"),
        state := st, interactive := true }

/-- `get_access_token(config)` from email.py: try the first cached
account silently (`result and "access_token" in result`, an empty dict
being falsy), fall back to the device-code flow. -/
def get_access_token (env : MsalEnv) (st : AuthState) : AuthResult :=
  match env.accounts with
  | a :: _ =>
    match env.acquire_token_silent SCOPES a with
    | Option.some result =>
      if List.isEmpty result then deviceFlowStep env st
      else
        match dictGet result "access_token" with
        | Option.some v => { outcome := AuthOutcome.token v, state := st, interactive := false }
        | Option.none => deviceFlowStep env st
    | Option.none => deviceFlowStep env st
  | [] => deviceFlowStep env st

/-! ## email.py: mail sender -/

/-- The `requests.post` response as `send_email` inspects it. -/
structure HttpResponse where
  status_code : Nat
  text : String
deriving DecidableEq

/-- Observable events of one `send_email` invocation, in order. -/
inductive Event
  | getToken
  | networkSend (toAddr subject body : String)
  | auditWrite (filename : String)
  | printLine (line : String)
  | reportSuccess
  | reportFailure
deriving DecidableEq

/-- The `sent/` audit directory: file name paired with JSON content. -/
abbrev AuditStore : Type := List (String × PyDict)

/-- The `log_entry` dict built inline by `send_email` on a 202 response. -/
def sendLogEntry (now : UTCTime) (toAddr subject : String) : PyDict :=
  [("timestamp", PyValue.str (isoformat now ++ "Z")),
   ("to", PyValue.str toAddr),
   ("subject", PyValue.str subject),
   ("status", PyValue.str "sent"),
   ("outlook", PyValue.bool true)]

/-- The audit file name built inline by `send_email`:
`f"{utcnow().strftime('%Y%m%d-%H%M%S')}-{to.split('@')[0]}.json"`. -/
def auditFileName (now : UTCTime) (toAddr : String) : String :=
  strftimeCompact now ++ "-" ++ localPart toAddr ++ ".json"

/-- Result of `send_email`: the boolean return value, the auth state and
audit directory after the call, the event trace, and the number of HTTP
send calls issued. -/
structure SendResult where
  ok : Bool
  authState : AuthState
  store : AuditStore
  trace : List Event
  postCalls : Nat
deriving DecidableEq

/-- `send_email(to, subject, body, config)` from email.py: acquire a
token, post the message, and on the single accepted status 202 write one
audit record before returning `True`; on any other status print
`ERROR: <code> - <text>` and return `False` without retrying. -/
def send_email (toAddr subject body : String) (env : MsalEnv) (authSt : AuthState)
    (resp : HttpResponse) (now : UTCTime) (store : AuditStore) : SendResult :=
  let auth := get_access_token env authSt
  match auth.outcome with
  | AuthOutcome.noToken _ =>
    { ok := false, authState := auth.state, store := store,
      trace := [Event.getToken, Event.reportFailure], postCalls := 0 }
  | AuthOutcome.token _ =>
    if resp.status_code = 202 then
      let entry := sendLogEntry now toAddr subject
      let fname := auditFileName now toAddr
      { ok := true, authState := auth.state,
        store := store ++ [(fname, entry)],
        trace := [Event.getToken, Event.networkSend toAddr subject body,
                  Event.auditWrite fname, Event.reportSuccess],
        postCalls := 1 }
    else
      { ok := false, authState := auth.state, store := store,
        trace := [Event.getToken, Event.networkSend toAddr subject body,
                  Event.printLine ("ERROR: " ++ toString resp.status_code ++ " - " ++ resp.text),
                  Event.reportFailure],
        postCalls := 1 }

/-- A second definition following the specification's words, for
comparison with `auditFileName`: the recipient local part truncated to
at most 20 characters. -/
def specTruncatedFileName (now : UTCTime) (toAddr : String) : String :=
  strftimeCompact now ++ "-" ++ String.mk ((localPart toAddr).data.take 20) ++ ".json"

/-- True exactly when `get_access_token` falls through to the device-code
branch: no cached account, or the silent attempt for the first account
yields nothing usable (`None`, an empty dict, or a dict without an
`access_token`). -/
def takesDevicePath (env : MsalEnv) : Bool :=
  match env.accounts with
  | [] => true
  | a :: _ =>
    match env.acquire_token_silent SCOPES a with
    | Option.none => true
    | Option.some result => result.isEmpty || (dictGet result "access_token").isNone

/-- A fixed UTC instant for the concrete scenarios. -/
def t0 : UTCTime := ⟨2024, 1, 1, 0, 0, 0, 0⟩

/-- An MSAL environment whose silent path succeeds with token `"tok"`. -/
def demoEnv : MsalEnv :=
  { accounts := ["user"],
    acquire_token_silent := fun _ _ => Option.some [("access_token", PyValue.str "tok")],
    initiate_device_flow := fun _ => [],
    acquire_token_by_device_flow := fun _ => [],
    cacheSerialized := "blob" }

/-- An MSAL environment with no cached account whose device-code exchange
comes back expired. -/
def failEnv : MsalEnv :=
  { accounts := [],
    acquire_token_silent := fun _ _ => Option.none,
    initiate_device_flow := fun _ =>
      [("user_code", PyValue.str "ABC123"), ("verification_uri", PyValue.str "https://login")],
    acquire_token_by_device_flow := fun _ =>
      [("error_description", PyValue.str "expired_token: the code has expired")],
    cacheSerialized := "blob" }

/-- A recipient whose local part is 26 characters long. -/
def longRecipient : String := "abcdefghijklmnopqrstuvwxyz@example.com"

/-- A send context whose `subject` is the empty string (falsy), so the
validator rejects it, while its other fields are well-formed. -/
def emptySubjectCtx : PyDict :=
  [("to", PyValue.str "a@b.com"), ("subject", PyValue.str ""),
   ("timestamp", PyValue.str "2024-01-01T00:00:00Z")]

/-- A send context whose `to` is the empty string and whose timestamp is
not ISO-8601. -/
def emptyToCtx : PyDict :=
  [("to", PyValue.str ""), ("subject", PyValue.str "Hi"),
   ("timestamp", PyValue.str "not-a-date")]

/-- A send context whose `timestamp` entry is an integer, not a string. -/
def nonStringTsCtx : PyDict :=
  [("to", PyValue.str "a@b.com"), ("subject", PyValue.str "Hi"),
   ("timestamp", PyValue.int 5)]

/-! ## Helper lemmas -/

theorem dictGet_some_not_empty {r : PyDict} {k : String} {v : PyValue}
    (h : dictGet r k = Option.some v) : r.isEmpty = false := by
  cases r with
  | nil => simp [dictGet] at h
  | cons p t => rfl

theorem get_access_token_device (env : MsalEnv) (st : AuthState)
    (h : takesDevicePath env = true) :
    get_access_token env st = deviceFlowStep env st := by
  cases hacc : env.accounts with
  | nil => simp [get_access_token, hacc]
  | cons a rest =>
    cases hsil : env.acquire_token_silent SCOPES a with
    | none => simp [get_access_token, hacc, hsil]
    | some result =>
      simp only [takesDevicePath, hacc, hsil] at h
      cases hemp : result.isEmpty with
      | true => simp [get_access_token, hacc, hsil, hemp]
      | false =>
        rw [hemp] at h
        simp only [Bool.false_or, Option.isNone_iff_eq_none] at h
        simp [get_access_token, hacc, hsil, hemp, h]

theorem deviceFlowStep_state_change (env : MsalEnv) (st : AuthState)
    (h : (deviceFlowStep env st).state ≠ st) :
    ∃ v, (deviceFlowStep env st).outcome = AuthOutcome.token v := by
  cases huc : dictGet (env.initiate_device_flow SCOPES) "user_code" with
  | none => simp [deviceFlowStep, huc] at h
  | some u =>
    cases hat : dictGet (env.acquire_token_by_device_flow (env.initiate_device_flow SCOPES)) "access_token" with
    | none => simp [deviceFlowStep, huc, hat] at h
    | some v =>
      refine ⟨v, ?_⟩
      simp [deviceFlowStep, huc, hat]

theorem get_access_token_state_change (env : MsalEnv) (st : AuthState)
    (h : (get_access_token env st).state ≠ st) :
    ∃ v, (get_access_token env st).outcome = AuthOutcome.token v := by
  cases hacc : env.accounts with
  | nil =>
    rw [show get_access_token env st = deviceFlowStep env st by simp [get_access_token, hacc]] at h ⊢
    exact deviceFlowStep_state_change env st h
  | cons a rest =>
    cases hsil : env.acquire_token_silent SCOPES a with
    | none =>
      rw [show get_access_token env st = deviceFlowStep env st by simp [get_access_token, hacc, hsil]] at h ⊢
      exact deviceFlowStep_state_change env st h
    | some result =>
      cases hemp : result.isEmpty with
      | true =>
        rw [show get_access_token env st = deviceFlowStep env st by simp [get_access_token, hacc, hsil, hemp]] at h ⊢
        exact deviceFlowStep_state_change env st h
      | false =>
        cases hat : dictGet result "access_token" with
        | none =>
          rw [show get_access_token env st = deviceFlowStep env st by simp [get_access_token, hacc, hsil, hemp, hat]] at h ⊢
          exact deviceFlowStep_state_change env st h
        | some v =>
          exfalso
          apply h
          simp [get_access_token, hacc, hsil, hemp, hat]

theorem send_email_accepted (toAddr subject body : String) (env : MsalEnv)
    (st : AuthState) (resp : HttpResponse) (now : UTCTime) (store : AuditStore)
    (v : PyValue) (htok : (get_access_token env st).outcome = AuthOutcome.token v)
    (h202 : resp.status_code = 202) :
    send_email toAddr subject body env st resp now store =
      { ok := true, authState := (get_access_token env st).state,
        store := store ++ [(auditFileName now toAddr, sendLogEntry now toAddr subject)],
        trace := [Event.getToken, Event.networkSend toAddr subject body,
                  Event.auditWrite (auditFileName now toAddr), Event.reportSuccess],
        postCalls := 1 } := by
  simp [send_email, htok, h202]

theorem send_email_rejected (toAddr subject body : String) (env : MsalEnv)
    (st : AuthState) (resp : HttpResponse) (now : UTCTime) (store : AuditStore)
    (v : PyValue) (htok : (get_access_token env st).outcome = AuthOutcome.token v)
    (hne : resp.status_code ≠ 202) :
    send_email toAddr subject body env st resp now store =
      { ok := false, authState := (get_access_token env st).state, store := store,
        trace := [Event.getToken, Event.networkSend toAddr subject body,
                  Event.printLine ("ERROR: " ++ toString resp.status_code ++ " - " ++ resp.text),
                  Event.reportFailure],
        postCalls := 1 } := by
  simp [send_email, htok, hne]

/-! ## Claims -/

/-- Claim C1: the specification requires the Send Gate validator to run
immediately before every network send and a `fail` status to abort the
send. The code violates this: `send_email` never invokes `validate`.
Here a context whose `subject` is empty is rejected by the validator,
yet `send_email` with the same recipient and subject still transmits and
reports success on a 202 response. -/
theorem c1_gate_not_run :
    validate (fun _ => Except.ok ()) true emptySubjectCtx =
      { status := "fail", reason := "Missing required field: subject" } ∧
    (send_email "a@b.com" "" "body" demoEnv ⟨Option.none⟩ ⟨202, ""⟩ t0 []).ok = true ∧
    Event.networkSend "a@b.com" "" "body" ∈
      (send_email "a@b.com" "" "body" demoEnv ⟨Option.none⟩ ⟨202, ""⟩ t0 []).trace :=
  ⟨by decide, by decide, by decide⟩

/-- Claim C2 (counterexample): the audit record written by `send_email`
after an accepted send does not carry the validator id or validator
version fields the Audit Record schema lists; its field set is exactly
`timestamp, to, subject, status, outlook`. -/
theorem c2_counterexample :
    (send_email "a@b.com" "Hi" "body" demoEnv ⟨Option.none⟩ ⟨202, ""⟩ t0 []).store =
      [(auditFileName t0 "a@b.com", sendLogEntry t0 "a@b.com" "Hi")] ∧
    dictGet (sendLogEntry t0 "a@b.com" "Hi") "validator" = Option.none ∧
    dictGet (sendLogEntry t0 "a@b.com" "Hi") "version" = Option.none ∧
    List.map Prod.fst (sendLogEntry t0 "a@b.com" "Hi") =
      ["timestamp", "to", "subject", "status", "outlook"] :=
  ⟨by decide, by decide, by decide, by decide⟩

/-- Claim C2 (amended): every audit record written after an accepted send
contains exactly a "Z"-suffixed ISO-8601 UTC timestamp, the recipient,
the subject, the status `"sent"`, and the outlook flag `true` — and no
validator id or version fields. -/
theorem c2_record_fields (toAddr subject body : String) (env : MsalEnv)
    (st : AuthState) (resp : HttpResponse) (now : UTCTime) (store : AuditStore)
    (v : PyValue) (htok : (get_access_token env st).outcome = AuthOutcome.token v)
    (h202 : resp.status_code = 202) :
    (send_email toAddr subject body env st resp now store).store =
      store ++ [(auditFileName now toAddr, sendLogEntry now toAddr subject)] ∧
    List.map Prod.fst (sendLogEntry now toAddr subject) =
      ["timestamp", "to", "subject", "status", "outlook"] ∧
    (∃ p, dictGet (sendLogEntry now toAddr subject) "timestamp" =
      Option.some (PyValue.str (p ++ "Z"))) ∧
    dictGet (sendLogEntry now toAddr subject) "to" = Option.some (PyValue.str toAddr) ∧
    dictGet (sendLogEntry now toAddr subject) "subject" = Option.some (PyValue.str subject) ∧
    dictGet (sendLogEntry now toAddr subject) "status" = Option.some (PyValue.str "sent") ∧
    dictGet (sendLogEntry now toAddr subject) "outlook" = Option.some (PyValue.bool true) := by
  refine ⟨?_, rfl, ⟨isoformat now, rfl⟩, rfl, rfl, rfl, rfl⟩
  rw [send_email_accepted toAddr subject body env st resp now store v htok h202]

/-- Witness for the amended C2 at a concrete accepted send. -/
theorem c2_record_fields_w :
    (get_access_token demoEnv ⟨Option.none⟩).outcome = AuthOutcome.token (PyValue.str "tok") ∧
    (send_email "a@b.com" "Hi" "body" demoEnv ⟨Option.none⟩ ⟨202, ""⟩ t0 []).store =
      [(auditFileName t0 "a@b.com", sendLogEntry t0 "a@b.com" "Hi")] ∧
    dictGet (sendLogEntry t0 "a@b.com" "Hi") "status" = Option.some (PyValue.str "sent") :=
  ⟨rfl,
   (c2_record_fields "a@b.com" "Hi" "body" demoEnv ⟨Option.none⟩ ⟨202, ""⟩ t0 []
      (PyValue.str "tok") rfl rfl).1,
   (c2_record_fields "a@b.com" "Hi" "body" demoEnv ⟨Option.none⟩ ⟨202, ""⟩ t0 []
      (PyValue.str "tok") rfl rfl).2.2.2.2.2.1⟩

/-- Claim C3 (counterexample): for a recipient whose local part has 26
characters, the audit file name written by `send_email` keeps the full
local part; it differs from the specified truncated-to-20 pattern. -/
theorem c3_counterexample :
    (send_email longRecipient "Hi" "body" demoEnv ⟨Option.none⟩ ⟨202, ""⟩ t0 []).store =
      [(auditFileName t0 longRecipient, sendLogEntry t0 longRecipient "Hi")] ∧
    auditFileName t0 longRecipient = "20240101-000000-abcdefghijklmnopqrstuvwxyz.json" ∧
    auditFileName t0 longRecipient ≠ specTruncatedFileName t0 longRecipient :=
  ⟨by decide, by decide, by decide⟩

/-- Claim C3 (amended): the audit record's file name is the UTC timestamp
as `yyyyMMdd-HHmmss`, a hyphen, and the recipient's full local part (the
part before the first `@`, not truncated), followed by `.json`. -/
theorem c3_filename_untruncated (toAddr subject body : String) (env : MsalEnv)
    (st : AuthState) (resp : HttpResponse) (now : UTCTime) (store : AuditStore)
    (v : PyValue) (htok : (get_access_token env st).outcome = AuthOutcome.token v)
    (h202 : resp.status_code = 202) :
    (send_email toAddr subject body env st resp now store).store =
      store ++ [(strftimeCompact now ++ "-" ++ localPart toAddr ++ ".json",
                 sendLogEntry now toAddr subject)] := by
  rw [send_email_accepted toAddr subject body env st resp now store v htok h202]
  rfl

/-- Witness for the amended C3 at a concrete accepted send. -/
theorem c3_filename_untruncated_w :
    (send_email "alice@b.com" "Hi" "body" demoEnv ⟨Option.none⟩ ⟨202, ""⟩ t0 []).store =
      [(strftimeCompact t0 ++ "-" ++ localPart "alice@b.com" ++ ".json",
        sendLogEntry t0 "alice@b.com" "Hi")] :=
  c3_filename_untruncated "alice@b.com" "Hi" "body" demoEnv ⟨Option.none⟩ ⟨202, ""⟩ t0 []
    (PyValue.str "tok") rfl rfl

/-- Claim C4: when the provider returns the accepted status 202,
`send_email` writes exactly one new audit record with status `"sent"`,
and in the event trace the audit write precedes the success report. -/
theorem c4_accepted_send_audited (toAddr subject body : String) (env : MsalEnv)
    (st : AuthState) (resp : HttpResponse) (now : UTCTime) (store : AuditStore)
    (v : PyValue) (htok : (get_access_token env st).outcome = AuthOutcome.token v)
    (h202 : resp.status_code = 202) :
    (send_email toAddr subject body env st resp now store).ok = true ∧
    (send_email toAddr subject body env st resp now store).store =
      store ++ [(auditFileName now toAddr, sendLogEntry now toAddr subject)] ∧
    dictGet (sendLogEntry now toAddr subject) "status" = Option.some (PyValue.str "sent") ∧
    (∃ pre post, (send_email toAddr subject body env st resp now store).trace =
      pre ++ Event.auditWrite (auditFileName now toAddr) :: Event.reportSuccess :: post) := by
  rw [send_email_accepted toAddr subject body env st resp now store v htok h202]
  exact ⟨rfl, rfl, rfl,
    ⟨[Event.getToken, Event.networkSend toAddr subject body], [], rfl⟩⟩

/-- Witness for C4 at a concrete accepted send. -/
theorem c4_accepted_send_audited_w :
    ((202 : Nat) = 202) ∧
    (send_email "a@b.com" "Hi" "body" demoEnv ⟨Option.none⟩ ⟨202, ""⟩ t0 []).ok = true ∧
    (send_email "a@b.com" "Hi" "body" demoEnv ⟨Option.none⟩ ⟨202, ""⟩ t0 []).store =
      [(auditFileName t0 "a@b.com", sendLogEntry t0 "a@b.com" "Hi")] :=
  ⟨rfl,
   (c4_accepted_send_audited "a@b.com" "Hi" "body" demoEnv ⟨Option.none⟩ ⟨202, ""⟩ t0 []
      (PyValue.str "tok") rfl rfl).1,
   (c4_accepted_send_audited "a@b.com" "Hi" "body" demoEnv ⟨Option.none⟩ ⟨202, ""⟩ t0 []
      (PyValue.str "tok") rfl rfl).2.1⟩

/-- Claim C5: when the provider returns any status other than 202,
`send_email` returns failure, surfaces an error line carrying the status
code and the response body verbatim, issues exactly one send call (no
retry), and leaves the audit store unchanged. -/
theorem c5_rejected_send (toAddr subject body : String) (env : MsalEnv)
    (st : AuthState) (resp : HttpResponse) (now : UTCTime) (store : AuditStore)
    (v : PyValue) (htok : (get_access_token env st).outcome = AuthOutcome.token v)
    (hne : resp.status_code ≠ 202) :
    (send_email toAddr subject body env st resp now store).ok = false ∧
    (send_email toAddr subject body env st resp now store).store = store ∧
    (send_email toAddr subject body env st resp now store).postCalls = 1 ∧
    (send_email toAddr subject body env st resp now store).trace =
      [Event.getToken, Event.networkSend toAddr subject body,
       Event.printLine ("ERROR: " ++ toString resp.status_code ++ " - " ++ resp.text),
       Event.reportFailure] := by
  rw [send_email_rejected toAddr subject body env st resp now store v htok hne]
  exact ⟨rfl, rfl, rfl, rfl⟩

/-- Witness for C5 at a concrete 401 response. -/
theorem c5_rejected_send_w :
    ((401 : Nat) ≠ 202) ∧
    (send_email "a@b.com" "Hi" "body" demoEnv ⟨Option.none⟩ ⟨401, "Unauthorized"⟩ t0 []).ok = false ∧
    (send_email "a@b.com" "Hi" "body" demoEnv ⟨Option.none⟩ ⟨401, "Unauthorized"⟩ t0 []).store = [] ∧
    Event.printLine "ERROR: 401 - Unauthorized" ∈
      (send_email "a@b.com" "Hi" "body" demoEnv ⟨Option.none⟩ ⟨401, "Unauthorized"⟩ t0 []).trace :=
  ⟨by decide,
   (c5_rejected_send "a@b.com" "Hi" "body" demoEnv ⟨Option.none⟩ ⟨401, "Unauthorized"⟩ t0 []
      (PyValue.str "tok") rfl (by decide)).1,
   (c5_rejected_send "a@b.com" "Hi" "body" demoEnv ⟨Option.none⟩ ⟨401, "Unauthorized"⟩ t0 []
      (PyValue.str "tok") rfl (by decide)).2.1,
   by
    rw [(c5_rejected_send "a@b.com" "Hi" "body" demoEnv ⟨Option.none⟩ ⟨401, "Unauthorized"⟩ t0 []
      (PyValue.str "tok") rfl (by decide)).2.2.2]
    decide⟩

/-- Claim C6: the validator checks its rules in a fixed order and the
first failing rule wins: whenever `to` is missing or the empty string,
`validate` fails with `Missing required field: to`, whatever the
timestamp or the audit directory look like. -/
theorem c6_missing_to_wins (fromiso : String → Except PyExn Unit)
    (sentDirExists : Bool) (context : PyDict)
    (h : dictGet context "to" = Option.none ∨
         dictGet context "to" = Option.some (PyValue.str "")) :
    validate fromiso sentDirExists context =
      { status := "fail", reason := "Missing required field: to" } := by
  cases h with
  | inl h => simp [validate, requiredMissing, h]
  | inr h =>
    have ht : truthy (PyValue.str "") = false := by decide
    simp [validate, requiredMissing, h, ht]

/-- Witness for C6: a context with empty `to` and an invalid timestamp. -/
theorem c6_missing_to_wins_w :
    dictGet emptyToCtx "to" = Option.some (PyValue.str "") ∧
    validate (fun _ => Except.ok ()) true emptyToCtx =
      { status := "fail", reason := "Missing required field: to" } :=
  ⟨by decide, c6_missing_to_wins (fun _ => Except.ok ()) true emptyToCtx (Or.inr (by decide))⟩

/-- Claim C7 (counterexample): two distinct recipient addresses sharing
the local part `a` collide: within the same second `send_email` derives
the same audit file name for both. -/
theorem c7_counterexample :
    ("a@x.com" : String) ≠ "a@y.com" ∧
    auditFileName t0 "a@x.com" = auditFileName t0 "a@y.com" ∧
    List.map Prod.fst (send_email "a@x.com" "Hi" "b" demoEnv ⟨Option.none⟩ ⟨202, ""⟩ t0 []).store =
      List.map Prod.fst (send_email "a@y.com" "Hi" "b" demoEnv ⟨Option.none⟩ ⟨202, ""⟩ t0 []).store :=
  ⟨by decide, by decide, by decide⟩

/-- Claim C7 (amended): audit records written within the same second for
two recipients whose local parts differ receive distinct file names. -/
theorem c7_distinct_local_parts (now : UTCTime) (a b : String)
    (h : localPart a ≠ localPart b) :
    auditFileName now a ≠ auditFileName now b := by
  intro heq
  apply h
  unfold auditFileName at heq
  have hd := congrArg String.data heq
  simp only [String.data_append, List.append_assoc] at hd
  rw [List.append_right_inj, List.append_right_inj, List.append_left_inj] at hd
  exact String.ext hd

/-- Witness for the amended C7. -/
theorem c7_distinct_local_parts_w :
    localPart "alice@x.com" ≠ localPart "bob@x.com" ∧
    auditFileName t0 "alice@x.com" ≠ auditFileName t0 "bob@x.com" :=
  ⟨by decide, c7_distinct_local_parts t0 "alice@x.com" "bob@x.com" (by decide)⟩

/-- Claim C8: when the device-code exchange fails, `get_access_token`
returns the provider's description and leaves the persisted credential
cache untouched; and in general the cache blob is rewritten only when a
token was acquired. -/
theorem c8_no_persist_on_failure (env : MsalEnv) (st : AuthState) (u : PyValue)
    (hdev : takesDevicePath env = true)
    (hflow : dictGet (env.initiate_device_flow SCOPES) "user_code" = Option.some u)
    (hfail : dictGet (env.acquire_token_by_device_flow (env.initiate_device_flow SCOPES))
      "access_token" = Option.none) :
    get_access_token env st =
      { outcome := AuthOutcome.noToken
          (getDesc (env.acquire_token_by_device_flow (env.initiate_device_flow SCOPES))
            "error_description" "Authentication failed"),
        state := st, interactive := true } ∧
    (∀ env2 st2, (get_access_token env2 st2).state ≠ st2 →
      ∃ w, (get_access_token env2 st2).outcome = AuthOutcome.token w) := by
  constructor
  · rw [get_access_token_device env st hdev]
    simp [deviceFlowStep, hflow, hfail]
  · exact fun env2 st2 => get_access_token_state_change env2 st2

/-- Witness for C8: an expired device-code exchange with an empty cache. -/
theorem c8_no_persist_on_failure_w :
    takesDevicePath failEnv = true ∧
    get_access_token failEnv ⟨Option.none⟩ =
      { outcome := AuthOutcome.noToken "expired_token: the code has expired",
        state := ⟨Option.none⟩, interactive := true } :=
  ⟨rfl,
   (c8_no_persist_on_failure failEnv ⟨Option.none⟩ (PyValue.str "ABC123")
      rfl rfl rfl).1⟩

/-- Claim C9: when the loaded cache holds at least one account and the
silent acquisition for the scope set yields a token, `get_access_token`
returns that token at once, without initiating a device-code exchange
and without touching the persisted cache. -/
theorem c9_silent_path (env : MsalEnv) (st : AuthState) (a : String)
    (rest : List String) (result : PyDict) (v : PyValue)
    (hacc : env.accounts = a :: rest)
    (hsil : env.acquire_token_silent SCOPES a = Option.some result)
    (hat : dictGet result "access_token" = Option.some v) :
    get_access_token env st =
      { outcome := AuthOutcome.token v, state := st, interactive := false } := by
  have hemp : result.isEmpty = false := dictGet_some_not_empty hat
  simp [get_access_token, hacc, hsil, hemp, hat]

/-- Witness for C9: a populated cache whose silent refresh succeeds. -/
theorem c9_silent_path_w :
    demoEnv.accounts = "user" :: [] ∧
    get_access_token demoEnv ⟨Option.none⟩ =
      { outcome := AuthOutcome.token (PyValue.str "tok"),
        state := ⟨Option.none⟩, interactive := false } :=
  ⟨rfl, c9_silent_path demoEnv ⟨Option.none⟩ "user" []
    [("access_token", PyValue.str "tok")] (PyValue.str "tok") rfl rfl rfl⟩

/-- Claim C10: `validate` is total: on a context whose three required
entries are present and truthy but whose timestamp is not a string, the
`.replace` attribute access raises `AttributeError`, the `except` clause
catches it, and `validate` returns `fail, "Invalid timestamp format"`. -/
theorem c10_nonstring_timestamp (fromiso : String → Except PyExn Unit)
    (sentDirExists : Bool) (context : PyDict) (tv sv v : PyValue)
    (hto : dictGet context "to" = Option.some tv) (htot : truthy tv = true)
    (hsub : dictGet context "subject" = Option.some sv) (hsubt : truthy sv = true)
    (hts : dictGet context "timestamp" = Option.some v) (htst : truthy v = true)
    (hstr : ∀ s, v ≠ PyValue.str s) :
    timestampParse fromiso v = Except.error PyExn.attributeError ∧
    validate fromiso sentDirExists context =
      { status := "fail", reason := "Invalid timestamp format" } := by
  have hparse : timestampParse fromiso v = Except.error PyExn.attributeError := by
    cases v with
    | str s => exact absurd rfl (hstr s)
    | int n => rfl
    | bool b => rfl
    | none => rfl
  refine ⟨hparse, ?_⟩
  simp [validate, requiredMissing, hto, htot, hsub, hsubt, hts, htst, hparse]

/-- Witness for C10: a context whose timestamp entry is the integer 5. -/
theorem c10_nonstring_timestamp_w :
    truthy (PyValue.int 5) = true ∧
    validate (fun _ => Except.ok ()) true nonStringTsCtx =
      { status := "fail", reason := "Invalid timestamp format" } :=
  ⟨by decide,
   (c10_nonstring_timestamp (fun _ => Except.ok ()) true nonStringTsCtx
      (PyValue.str "a@b.com") (PyValue.str "Hi") (PyValue.int 5)
      (by decide) (by decide) (by decide) (by decide) (by decide) (by decide)
      (fun s h => PyValue.noConfusion h)).2⟩
